import Mathlib

/-!
Shallow embedding of the dataset-construction layer of the torchgeo
Potsdam2D (src/torchgeo/datasets/potsdam.py) and XView2
(src/torchgeo/datasets/xview.py) dataset classes.

The filesystem is modelled explicitly as a value: the set of regular
files, the set of directories, a content-checksum oracle, and a decode
oracle giving the pixel dimensions of image files.  Extraction is a
recorded side effect on this state.  Python exceptions become an
explicit error result; the verify/init methods are state-passing
functions returning the error (if any) together with the post-state,
matching the fact that side effects performed before a Python raise
persist.
-/

/-- Pixel dimensions of a decodable image file on disk (what
`PIL.Image.open` plus `np.array` would yield; channel forcing is done by
the loader, so only height and width live here). -/
structure ImgFile where
  height : Nat
  width : Nat
deriving DecidableEq, Repr

/-- The filesystem state.  `files` and `dirs` are the regular files and
directories present; `md5` is the content-checksum oracle (the MD5 hex
digest of each file's bytes); `image` decodes a path into its pixel
dimensions (`none` when the path is missing or not a decodable image);
`extracted` records which archives have had their contents decompressed
into the canonical layout. -/
structure FS where
  files : List String
  dirs : List String
  md5 : String → String
  image : String → Option ImgFile
  extracted : List String

/-- `os.path.isfile`. -/
def FS.isFile (fs : FS) (p : String) : Bool :=
  fs.files.contains p

/-- `os.path.exists` (true for both files and directories). -/
def FS.existsPath (fs : FS) (p : String) : Bool :=
  fs.files.contains p || fs.dirs.contains p

/-- `os.path.join` on two relative components. -/
def pathJoin (a b : String) : String :=
  a ++ "/" ++ b

/-- Modelled from the spec: `check_integrity` (torchgeo.datasets.utils,
not under src/): §4.1/§6 — compute a content checksum of the file and
compare it against the hardcoded expected value. -/
def check_integrity (fs : FS) (filepath md5 : String) : Bool :=
  fs.md5 filepath == md5

/-- Modelled from the spec: `extract_archive` (torchgeo.datasets.utils,
not under src/): §4.2 — decompress the archive into the canonical
directory layout.  The contents are opaque here; the effect is recorded
in `FS.extracted`. -/
def extract_archive (fs : FS) (filepath : String) : FS :=
  { fs with extracted := fs.extracted ++ [filepath] }

/-- The errors the constructors can raise.  `invalidConfiguration` is
the failed `assert split in ...`; `integrity` is
`RuntimeError("Dataset found, but corrupted.")`; `notFound` is
`RuntimeError("Dataset not found in root directory, ...")`. -/
inductive DatasetError where
  | invalidConfiguration
  | integrity
  | notFound
deriving DecidableEq, Repr

/-- The archive-scanning loop shared verbatim by `Potsdam2D._verify` and
`XView2._verify`: for each declared `(filename, md5)` pair, if the
archive file exists then optionally check its checksum (raising
`integrity` on mismatch), record `True` and extract it; otherwise
record `False`.  Returns the error (if raised), the post-state, and the
accumulated existence flags. -/
def checkArchivesLoop (checksum : Bool) (root : String) :
    List (String × String) → FS → List Bool → Option DatasetError × FS × List Bool
  | [], fs, ex => (none, fs, ex)
  | (filename, md5) :: rest, fs, ex =>
    let filepath := pathJoin root filename
    if fs.isFile filepath then
      if checksum && !(check_integrity fs filepath md5) then
        (some .integrity, fs, ex)
      else
        checkArchivesLoop checksum root rest (extract_archive fs filepath) (ex ++ [true])
    else
      checkArchivesLoop checksum root rest fs (ex ++ [false])

/-! ## Potsdam2D class attributes (src/torchgeo/datasets/potsdam.py) -/

def Potsdam2D.filenames : List String :=
  ["4_Ortho_RGBIR.zip", "5_Labels_all.zip"]

def Potsdam2D.md5s : List String :=
  ["c4a8f7d8c7196dd4eba4addd0aae10c1", "cf7403c1a97c0d279414db"]

def Potsdam2D.image_root : String := "4_Ortho_RGBIR"

def Potsdam2D.trainScenes : List String :=
  ["top_potsdam_2_10", "top_potsdam_2_11", "top_potsdam_2_12",
   "top_potsdam_3_10", "top_potsdam_3_11", "top_potsdam_3_12",
   "top_potsdam_4_10", "top_potsdam_4_11", "top_potsdam_4_12",
   "top_potsdam_5_10", "top_potsdam_5_11", "top_potsdam_5_12",
   "top_potsdam_6_10", "top_potsdam_6_11", "top_potsdam_6_12",
   "top_potsdam_6_7", "top_potsdam_6_8", "top_potsdam_6_9",
   "top_potsdam_7_10", "top_potsdam_7_11", "top_potsdam_7_12",
   "top_potsdam_7_7", "top_potsdam_7_8", "top_potsdam_7_9"]

def Potsdam2D.testScenes : List String :=
  ["top_potsdam_5_15", "top_potsdam_6_15", "top_potsdam_6_13",
   "top_potsdam_3_13", "top_potsdam_4_14", "top_potsdam_6_14",
   "top_potsdam_5_14", "top_potsdam_2_13", "top_potsdam_4_15",
   "top_potsdam_2_14", "top_potsdam_5_13", "top_potsdam_4_13",
   "top_potsdam_3_14", "top_potsdam_7_13"]

/-- The `splits` dict: split tag to its hardcoded scene-id list. -/
def Potsdam2D.splits (split : String) : Option (List String) :=
  if split = "train" then some Potsdam2D.trainScenes
  else if split = "test" then some Potsdam2D.testScenes
  else none

def Potsdam2D.classes : List String :=
  ["Clutter/background", "Impervious surfaces", "Building",
   "Low Vegetation", "Tree", "Car"]

def Potsdam2D.colormap : List (Nat × Nat × Nat) :=
  [(255, 0, 0), (255, 255, 255), (0, 0, 255),
   (0, 255, 255), (0, 255, 0), (255, 255, 0)]

/-- `os.path.join(root, self.image_root, name) + "_RGBIR.tif"`. -/
def Potsdam2D.imagePath (root name : String) : String :=
  pathJoin (pathJoin root Potsdam2D.image_root) name ++ "_RGBIR.tif"

/-- `os.path.join(root, name) + "_label.tif"`. -/
def Potsdam2D.maskPath (root name : String) : String :=
  pathJoin root name ++ "_label.tif"

/-- One entry of `self.files`: `dict(image=image, mask=mask)`. -/
structure PRecord where
  image : String
  mask : String
deriving DecidableEq, Repr

def Potsdam2D.mkRecord (root name : String) : PRecord :=
  ⟨Potsdam2D.imagePath root name, Potsdam2D.maskPath root name⟩

/-- The record-building loop at the end of `Potsdam2D.__init__`: iterate
the split's scene list in declared order, keep a record exactly when
both the image and the mask path exist on disk. -/
def Potsdam2D.loadFiles (root : String) (fs : FS) (scenes : List String) :
    List PRecord :=
  scenes.filterMap fun name =>
    if fs.existsPath (Potsdam2D.imagePath root name)
        && fs.existsPath (Potsdam2D.maskPath root name) then
      some (Potsdam2D.mkRecord root name)
    else
      none

/-- `Potsdam2D._verify`: short-circuit if the extracted directory
exists; otherwise scan the declared archives (extracting present ones),
succeed when all were present and raise `notFound` otherwise. -/
def Potsdam2D.verify (checksum : Bool) (root : String) (fs : FS) :
    Option DatasetError × FS :=
  if fs.existsPath (pathJoin root Potsdam2D.image_root) then
    (none, fs)
  else
    match checkArchivesLoop checksum root
        (Potsdam2D.filenames.zip Potsdam2D.md5s) fs [] with
    | (some e, fs2, _) => (some e, fs2)
    | (none, fs2, ex) =>
      if ex.all id then (none, fs2) else (some .notFound, fs2)

/-- `Potsdam2D.__init__`: assert the split tag, verify (with side
effects), then build the record list. -/
def Potsdam2D.init (root split : String) (checksum : Bool) (fs : FS) :
    Option DatasetError × FS × Option (List PRecord) :=
  match Potsdam2D.splits split with
  | none => (some .invalidConfiguration, fs, none)
  | some scenes =>
    match Potsdam2D.verify checksum root fs with
    | (some e, fs2) => (some e, fs2, none)
    | (none, fs2) => (none, fs2, some (Potsdam2D.loadFiles root fs2 scenes))

/-- `Potsdam2D.__len__` on the record list. -/
def Potsdam2D.length (files : List PRecord) : Nat :=
  files.length

/-! ## XView2 class attributes (src/torchgeo/datasets/xview.py) -/

/-- One value of the `metadata` dict. -/
structure XMeta where
  filename : String
  md5 : String
  directory : String
deriving DecidableEq, Repr

def XView2.trainMeta : XMeta :=
  ⟨"train_images_labels_targets.tar.gz",
   "a20ebbfb7eb3452785b63ad02ffd1e16", "train"⟩

def XView2.testMeta : XMeta :=
  ⟨"test_images_labels_targets.tar.gz",
   "1b39c47e05d1319c17cc8763cee6fe0c", "test"⟩

/-- `metadata.values()` in dict insertion order. -/
def XView2.metadataValues : List XMeta :=
  [XView2.trainMeta, XView2.testMeta]

/-- The `metadata` dict as a lookup. -/
def XView2.metadata (split : String) : Option XMeta :=
  if split = "train" then some XView2.trainMeta
  else if split = "test" then some XView2.testMeta
  else none

def XView2.classes : List String :=
  ["background", "no-damage", "minor-damage", "major-damage", "destroyed"]

def XView2.colormap : List String :=
  ["green", "blue", "orange", "red"]

/-- One entry of `XView2.files`: paths of pre/post image and mask. -/
structure XRecord where
  image1 : String
  image2 : String
  mask1 : String
  mask2 : String
deriving DecidableEq, Repr

/-- `os.path.basename`: the component after the last slash. -/
def basename (p : String) : String :=
  (p.splitOn "/").getLastD ""

/-- `"_".join(f.split("_")[:-2])`: drop the last two underscore-delimited
tokens and rejoin. -/
def stripLastTwoTokens (f : String) : String :=
  String.intercalate "_" ((f.splitOn "_").dropLast.dropLast)

/-- `glob.glob(os.path.join(dir, "*.png"))`: the files directly inside
`dir` whose name ends in `.png` (glob order is filesystem-dependent; the
model keeps `FS.files` order). -/
def FS.globPng (fs : FS) (dir : String) : List String :=
  fs.files.filter fun p =>
    p.startsWith (dir ++ "/") && p.endsWith ".png"
      && !((p.drop (dir.length + 1)).contains '/')

/-- The four paths `_load_files` constructs for a base name. -/
def XView2.mkRecord (image_root mask_root name : String) : XRecord :=
  ⟨pathJoin image_root (name ++ "_pre_disaster.png"),
   pathJoin image_root (name ++ "_post_disaster.png"),
   pathJoin mask_root (name ++ "_pre_disaster_target.png"),
   pathJoin mask_root (name ++ "_post_disaster_target.png")⟩

/-- `XView2._load_files`: glob the split's images directory for pngs,
strip the last two underscore tokens of each basename, deduplicate via a
set (modelled as `List.dedup`: one element per distinct name, iteration
order unspecified in Python), and build one record of four constructed
paths per deduplicated name, with no existence check. -/
def XView2.load_files (root split : String) (fs : FS) :
    Option (List XRecord) :=
  match XView2.metadata split with
  | none => none
  | some info =>
    let image_root := pathJoin root (pathJoin info.directory "images")
    let mask_root := pathJoin root (pathJoin info.directory "targets")
    let images := fs.globPng image_root
    let basenames := images.map basename
    let basenames := basenames.map stripLastTwoTokens
    some (basenames.dedup.map fun name =>
      XView2.mkRecord image_root mask_root name)

/-- The first `exists` list of `XView2._verify`: for each split (in
`metadata.values()` order) and each of the `images`, `labels`,
`targets` directories, whether that directory exists. -/
def XView2.dirsExist (root : String) (fs : FS) : List Bool :=
  XView2.metadataValues.flatMap fun info =>
    ["images", "labels", "targets"].map fun d =>
      fs.existsPath (pathJoin root (pathJoin info.directory d))

/-- `XView2._verify`: short-circuit when the `images`, `labels` and
`targets` directories of BOTH splits exist; otherwise scan both splits'
archives (extracting present ones), succeed when all present and raise
`notFound` otherwise. -/
def XView2.verify (checksum : Bool) (root : String) (fs : FS) :
    Option DatasetError × FS :=
  if (XView2.dirsExist root fs).all id then
    (none, fs)
  else
    match checkArchivesLoop checksum root
        (XView2.metadataValues.map fun info => (info.filename, info.md5))
        fs [] with
    | (some e, fs2, _) => (some e, fs2)
    | (none, fs2, ex) =>
      if ex.all id then (none, fs2) else (some .notFound, fs2)

/-- `XView2.__init__`: assert the split tag, verify (with side effects),
then build the record list. -/
def XView2.init (root split : String) (checksum : Bool) (fs : FS) :
    Option DatasetError × FS × Option (List XRecord) :=
  match XView2.metadata split with
  | none => (some .invalidConfiguration, fs, none)
  | some _ =>
    match XView2.verify checksum root fs with
    | (some e, fs2) => (some e, fs2, none)
    | (none, fs2) => (none, fs2, XView2.load_files root split fs2)

/-! ## Tensor model for `getItemAt` (XView2.__getitem__) -/

/-- A decoded tensor, abstracted to its shape and its provenance: the
disk files it was decoded from, in stack order. -/
structure Tensor where
  shape : List Nat
  srcs : List String
deriving DecidableEq, Repr

/-- `torch.stack(tensors, dim=0)`: requires all shapes equal, prepends a
new leading axis of size `len(tensors)`. -/
def torchStack (ts : List Tensor) : Option Tensor :=
  match ts with
  | [] => none
  | t :: rest =>
    if rest.all fun u => u.shape == t.shape then
      some ⟨(t :: rest).length :: t.shape, (ts.map Tensor.srcs).flatten⟩
    else
      none

/-- `XView2._load_image`: decode, force 3-channel RGB, permute
`[H,W,C]` to `[C,H,W]`. -/
def XView2.load_image (fs : FS) (path : String) : Option Tensor :=
  (fs.image path).map fun f => ⟨[3, f.height, f.width], [path]⟩

/-- `XView2._load_target`: decode, force single-channel grayscale, keep
`[H,W]`, cast to long. -/
def XView2.load_target (fs : FS) (path : String) : Option Tensor :=
  (fs.image path).map fun f => ⟨[f.height, f.width], [path]⟩

/-- A sample: the dict returned by `__getitem__`, as an association
list (keys in insertion order). -/
def Sample := List (String × Tensor)

/-- `XView2.__getitem__`: load both images and both masks of the indexed
record, stack each pair along a new leading axis, build
`{image, mask}`, and apply the installed transform if any. -/
def XView2.getitem (transforms : Option (Sample → Sample)) (fs : FS)
    (files : List XRecord) (index : Nat) : Option Sample := do
  let r ← files.get? index
  let image1 ← XView2.load_image fs r.image1
  let image2 ← XView2.load_image fs r.image2
  let mask1 ← XView2.load_target fs r.mask1
  let mask2 ← XView2.load_target fs r.mask2
  let image ← torchStack [image1, image2]
  let mask ← torchStack [mask1, mask2]
  let sample : Sample := [("image", image), ("mask", mask)]
  match transforms with
  | none => some sample
  | some t => some (t sample)

/-- `XView2.__len__` on the record list. -/
def XView2.length (files : List XRecord) : Nat :=
  files.length

/-! ## Helper lemmas -/

@[simp] theorem extract_files (fs : FS) (p : String) :
    (extract_archive fs p).files = fs.files := rfl

@[simp] theorem extract_dirs (fs : FS) (p : String) :
    (extract_archive fs p).dirs = fs.dirs := rfl

@[simp] theorem extract_md5 (fs : FS) (p : String) :
    (extract_archive fs p).md5 = fs.md5 := rfl

@[simp] theorem extract_image (fs : FS) (p : String) :
    (extract_archive fs p).image = fs.image := rfl

@[simp] theorem extract_isFile (fs : FS) (p q : String) :
    (extract_archive fs p).isFile q = fs.isFile q := rfl

@[simp] theorem extract_existsPath (fs : FS) (p q : String) :
    (extract_archive fs p).existsPath q = fs.existsPath q := rfl

@[simp] theorem extract_extracted (fs : FS) (p : String) :
    (extract_archive fs p).extracted = fs.extracted ++ [p] := rfl

theorem existsPath_congr {fs1 fs2 : FS} (hf : fs1.files = fs2.files)
    (hd : fs1.dirs = fs2.dirs) (p : String) :
    fs1.existsPath p = fs2.existsPath p := by
  simp [FS.existsPath, hf, hd]

/-- The full paths of the declared archives present on disk, in
declaration order. -/
def presentArchives (root : String) (fs : FS) (ps : List (String × String)) :
    List String :=
  ps.filterMap fun p =>
    if fs.isFile (pathJoin root p.1) then some (pathJoin root p.1) else none

/-- With checksum checking disabled the archive loop never raises: it
extracts exactly the present archives (in declaration order) and records
one existence flag per declared archive. -/
theorem loop_false_spec (root : String) :
    ∀ (ps : List (String × String)) (fs : FS) (ex : List Bool),
      checkArchivesLoop false root ps fs ex =
        (none,
         { fs with extracted := fs.extracted ++ presentArchives root fs ps },
         ex ++ ps.map fun p => fs.isFile (pathJoin root p.1))
  | [], fs, ex => by simp [checkArchivesLoop, presentArchives]
  | (f, m) :: rest, fs, ex => by
    have ih := loop_false_spec root rest
    cases h : fs.isFile (pathJoin root f) with
    | true =>
      simp only [checkArchivesLoop, h, ih, Bool.false_and, Bool.not_false,
        if_true, if_false]
      simp [presentArchives, h, List.filterMap_cons]
    | false =>
      simp only [checkArchivesLoop, h, ih]
      simp [presentArchives, h, List.filterMap_cons]

/-- The archive loop can only raise the integrity error. -/
theorem loop_error_integrity (c : Bool) (root : String) :
    ∀ (ps : List (String × String)) (fs : FS) (ex : List Bool)
      (e : DatasetError),
      (checkArchivesLoop c root ps fs ex).1 = some e → e = .integrity
  | [], fs, ex, e => by simp [checkArchivesLoop]
  | (f, m) :: rest, fs, ex, e => by
    simp only [checkArchivesLoop]
    split
    · split
      · simp +contextual
      · exact loop_error_integrity c root rest _ _ e
    · exact loop_error_integrity c root rest _ _ e

/-- With checksum checking enabled, the archive loop raises the
integrity error as soon as some declared archive is present on disk
with a mismatching checksum. -/
theorem loop_true_integrity (root : String) :
    ∀ (ps : List (String × String)) (fs : FS) (ex : List Bool),
      (∃ p ∈ ps, fs.isFile (pathJoin root p.1)
        ∧ fs.md5 (pathJoin root p.1) ≠ p.2) →
      (checkArchivesLoop true root ps fs ex).1 = some .integrity
  | [], fs, ex => by simp
  | (f, m) :: rest, fs, ex => by
    rintro ⟨p, hp, hfile, hmd5⟩
    rcases List.mem_cons.mp hp with hhead | htail
    · subst hhead
      simp only [checkArchivesLoop, hfile, if_true, check_integrity]
      have : (fs.md5 (pathJoin root f) == m) = false := by
        simpa using hmd5
      simp [this]
    · by_cases hf : fs.isFile (pathJoin root f) = true
      · simp only [checkArchivesLoop, hf, if_true, check_integrity]
        by_cases hmatch : (fs.md5 (pathJoin root f) == m) = true
        · simp only [hmatch, Bool.not_true, Bool.and_false, if_false]
          exact loop_true_integrity root rest _ _ ⟨p, htail, by simpa using hfile,
            by simpa using hmd5⟩
        · simp [Bool.eq_false_iff.mpr hmatch]
      · simp only [checkArchivesLoop, Bool.eq_false_iff.mpr hf, if_false]
        exact loop_true_integrity root rest _ _ ⟨p, htail, hfile, hmd5⟩

/-- The archive loop never touches `files` and `dirs`. -/
theorem loop_preserves_fsys (c : Bool) (root : String) :
    ∀ (ps : List (String × String)) (fs : FS) (ex : List Bool),
      (checkArchivesLoop c root ps fs ex).2.1.files = fs.files
        ∧ (checkArchivesLoop c root ps fs ex).2.1.dirs = fs.dirs
  | [], fs, ex => ⟨rfl, rfl⟩
  | (f, m) :: rest, fs, ex => by
    simp only [checkArchivesLoop]
    split
    · split
      · exact ⟨rfl, rfl⟩
      · exact loop_preserves_fsys c root rest _ _
    · exact loop_preserves_fsys c root rest _ _

/-- `Potsdam2D._verify` never touches `files` and `dirs`. -/
theorem potsdam_verify_preserves_fsys (c : Bool) (root : String) (fs : FS) :
    (Potsdam2D.verify c root fs).2.files = fs.files
      ∧ (Potsdam2D.verify c root fs).2.dirs = fs.dirs := by
  unfold Potsdam2D.verify
  split
  · exact ⟨rfl, rfl⟩
  · rcases hl : checkArchivesLoop c root
        (Potsdam2D.filenames.zip Potsdam2D.md5s) fs [] with ⟨e, fs2, ex⟩
    have h := loop_preserves_fsys c root
      (Potsdam2D.filenames.zip Potsdam2D.md5s) fs []
    rw [hl] at h
    cases e with
    | none => simpa using (by split <;> simpa using h :
        ((if ex.all id then ((none : Option DatasetError), fs2)
          else (some .notFound, fs2)).2.files = fs.files
        ∧ (if ex.all id then ((none : Option DatasetError), fs2)
          else (some .notFound, fs2)).2.dirs = fs.dirs))
    | some e => simpa using h

/-- A filterMap with an if-guard is a filter followed by a map. -/
theorem filterMap_guard {α β : Type} (p : α → Bool) (g : α → β) :
    ∀ l : List α,
      (l.filterMap fun a => if p a then some (g a) else none) = (l.filter p).map g
  | [] => rfl
  | a :: l => by
    cases h : p a with
    | true => simp [List.filterMap_cons, List.filter_cons, h, filterMap_guard p g l]
    | false => simp [List.filterMap_cons, List.filter_cons, h, filterMap_guard p g l]

/-- `Potsdam2D.loadFiles` keeps, in declared order, exactly the scenes
whose image and mask paths both exist. -/
theorem loadFiles_eq (root : String) (fs : FS) (scenes : List String) :
    Potsdam2D.loadFiles root fs scenes =
      (scenes.filter fun n => fs.existsPath (Potsdam2D.imagePath root n)
          && fs.existsPath (Potsdam2D.maskPath root n)).map
        (Potsdam2D.mkRecord root) :=
  filterMap_guard _ _ scenes

/-! ## C1 -/

/-- C1: for every valid split tag, the record list built by
`Potsdam2D.__init__` is the split's hardcoded scene list in declared
order, restricted to scenes whose image and mask paths both exist on
disk (missing pairs silently skipped), and `__len__` returns exactly
the number of such scenes. -/
theorem potsdam_length_counts_present_pairs
    (root split : String) (checksum : Bool) (fs fs2 : FS)
    (scenes : List String) (files : List PRecord)
    (hsplit : Potsdam2D.splits split = some scenes)
    (hinit : Potsdam2D.init root split checksum fs = (none, fs2, some files)) :
    files = (scenes.filter fun n =>
        fs.existsPath (Potsdam2D.imagePath root n)
          && fs.existsPath (Potsdam2D.maskPath root n)).map
        (Potsdam2D.mkRecord root)
      ∧ Potsdam2D.length files = (scenes.filter fun n =>
        fs.existsPath (Potsdam2D.imagePath root n)
          && fs.existsPath (Potsdam2D.maskPath root n)).length := by
  unfold Potsdam2D.init at hinit
  rw [hsplit] at hinit
  rcases hv : Potsdam2D.verify checksum root fs with ⟨e, fsv⟩
  rw [hv] at hinit
  cases e with
  | some e => simp at hinit
  | none =>
    simp only [Prod.mk.injEq, Option.some.injEq] at hinit
    obtain ⟨-, hfs, hfiles⟩ := hinit
    have hpres := potsdam_verify_preserves_fsys checksum root fs
    rw [hv] at hpres
    have hex : ∀ p, fsv.existsPath p = fs.existsPath p :=
      existsPath_congr hpres.1 hpres.2
    subst hfs
    rw [loadFiles_eq] at hfiles
    simp only [hex] at hfiles
    refine ⟨hfiles.symm, ?_⟩
    rw [← hfiles, Potsdam2D.length, List.length_map]

/-- A concrete root with the extracted directory present and the image
and mask of exactly one train scene on disk. -/
def fsC1 : FS :=
  { files := ["data/4_Ortho_RGBIR/top_potsdam_2_10_RGBIR.tif",
              "data/top_potsdam_2_10_label.tif"],
    dirs := ["data/4_Ortho_RGBIR"],
    md5 := fun _ => "",
    image := fun _ => none,
    extracted := [] }

theorem potsdam_length_counts_present_pairs_witness :
    [Potsdam2D.mkRecord "data" "top_potsdam_2_10"] =
        (Potsdam2D.trainScenes.filter fun n =>
          fsC1.existsPath (Potsdam2D.imagePath "data" n)
            && fsC1.existsPath (Potsdam2D.maskPath "data" n)).map
          (Potsdam2D.mkRecord "data")
      ∧ Potsdam2D.length [Potsdam2D.mkRecord "data" "top_potsdam_2_10"] =
        (Potsdam2D.trainScenes.filter fun n =>
          fsC1.existsPath (Potsdam2D.imagePath "data" n)
            && fsC1.existsPath (Potsdam2D.maskPath "data" n)).length :=
  potsdam_length_counts_present_pairs "data" "train" false fsC1 fsC1
    Potsdam2D.trainScenes [Potsdam2D.mkRecord "data" "top_potsdam_2_10"]
    rfl rfl

/-! ## C2 -/

/-- C2: with the canonical extracted directory absent, a declared
archive present on disk whose checksum differs from the hardcoded value
makes verification raise the integrity error when checksum checking is
enabled, and never raises the integrity error when checking is disabled
— for both `Potsdam2D._verify` and `XView2._verify`. -/
theorem tampered_archive_integrity
    (root : String) (fs : FS) (fp mp fx mx : String)
    (hdirP : fs.existsPath (pathJoin root Potsdam2D.image_root) = false)
    (hpP : (fp, mp) ∈ Potsdam2D.filenames.zip Potsdam2D.md5s)
    (hfileP : fs.isFile (pathJoin root fp) = true)
    (hmd5P : fs.md5 (pathJoin root fp) ≠ mp)
    (hdirX : fs.existsPath (pathJoin root (pathJoin "train" "images")) = false)
    (hpX : (fx, mx) ∈ XView2.metadataValues.map fun i => (i.filename, i.md5))
    (hfileX : fs.isFile (pathJoin root fx) = true)
    (hmd5X : fs.md5 (pathJoin root fx) ≠ mx) :
    (Potsdam2D.verify true root fs).1 = some .integrity
      ∧ (Potsdam2D.verify false root fs).1 ≠ some .integrity
      ∧ (XView2.verify true root fs).1 = some .integrity
      ∧ (XView2.verify false root fs).1 ≠ some .integrity := by
  have hxall : (XView2.dirsExist root fs).all id = false := by
    unfold XView2.dirsExist
    simp only [XView2.metadataValues, XView2.trainMeta, XView2.testMeta,
      List.flatMap_cons, List.map_cons, List.map_nil, List.flatMap_nil,
      List.append_nil, List.cons_append, List.all_cons, id_eq]
    rw [hdirX]
    simp
  refine ⟨?_, ?_, ?_, ?_⟩
  · have h := loop_true_integrity root
      (Potsdam2D.filenames.zip Potsdam2D.md5s) fs []
      ⟨(fp, mp), hpP, hfileP, hmd5P⟩
    unfold Potsdam2D.verify
    rcases hl : checkArchivesLoop true root
        (Potsdam2D.filenames.zip Potsdam2D.md5s) fs [] with ⟨e, fs2, ex⟩
    rw [hl] at h
    simp only at h
    subst h
    simp [hdirP, hl]
  · unfold Potsdam2D.verify
    rw [loop_false_spec]
    simp only [hdirP, Bool.false_eq_true, if_false]
    split <;> simp
  · have h := loop_true_integrity root
      (XView2.metadataValues.map fun i => (i.filename, i.md5)) fs []
      ⟨(fx, mx), hpX, hfileX, hmd5X⟩
    unfold XView2.verify
    rcases hl : checkArchivesLoop true root
        (XView2.metadataValues.map fun i => (i.filename, i.md5)) fs []
        with ⟨e, fs2, ex⟩
    rw [hl] at h
    simp only at h
    subst h
    rw [hxall]
    simp [hl]
  · unfold XView2.verify
    rw [hxall, loop_false_spec]
    simp only [Bool.false_eq_true, if_false]
    split <;> simp

/-- A root holding both datasets' first archives with tampered content
(the checksum oracle reports an all-zero digest), no extracted
directories. -/
def fsC2 : FS :=
  { files := ["data/4_Ortho_RGBIR.zip",
              "data/train_images_labels_targets.tar.gz"],
    dirs := [],
    md5 := fun _ => "00000000000000000000000000000000",
    image := fun _ => none,
    extracted := [] }

theorem tampered_archive_integrity_witness :
    (Potsdam2D.verify true "data" fsC2).1 = some .integrity
      ∧ (Potsdam2D.verify false "data" fsC2).1 ≠ some .integrity
      ∧ (XView2.verify true "data" fsC2).1 = some .integrity
      ∧ (XView2.verify false "data" fsC2).1 ≠ some .integrity :=
  tampered_archive_integrity "data" fsC2
    "4_Ortho_RGBIR.zip" "c4a8f7d8c7196dd4eba4addd0aae10c1"
    "train_images_labels_targets.tar.gz" "a20ebbfb7eb3452785b63ad02ffd1e16"
    rfl (by decide) rfl (by decide) rfl (by decide) rfl (by decide)

/-! ## C3 -/

/-- The `(filename, md5)` pairs `Potsdam2D._verify` iterates over. -/
def potsdamArchives : List (String × String) :=
  Potsdam2D.filenames.zip Potsdam2D.md5s

/-- The `(filename, md5)` pairs `XView2._verify` iterates over. -/
def xviewArchives : List (String × String) :=
  XView2.metadataValues.map fun i => (i.filename, i.md5)

/-- A root holding only the first Potsdam archive: the second archive
is missing, and so are both xView2 archives and all extracted
directories. -/
def fsC3 : FS :=
  { files := ["data/4_Ortho_RGBIR.zip"],
    dirs := [],
    md5 := fun _ => "",
    image := fun _ => none,
    extracted := [] }

/-- C3 counterexample: with the second declared archive missing,
`Potsdam2D._verify` raises the not-found error, yet it has already
extracted the first (present) archive — extraction is NOT deferred
until all archives are found, and the filesystem is changed on
error. -/
theorem verify_extracts_before_error_cex :
    (Potsdam2D.verify false "data" fsC3).1 = some .notFound
      ∧ (Potsdam2D.verify false "data" fsC3).2.extracted
          = ["data/4_Ortho_RGBIR.zip"]
      ∧ fsC3.extracted = [] :=
  ⟨rfl, rfl, rfl⟩

/-- C3 amended: during verification with the extracted directory
absent, each declared archive that is present is extracted immediately
as it is encountered; if any declared archive is missing, verification
fails with the not-found error, but the present archives have already
been extracted (the post-state appends exactly the present archives to
the extraction ledger).  Holds for both `Potsdam2D._verify` and
`XView2._verify`. -/
theorem verify_missing_archive_notfound
    (root : String) (fs : FS)
    (hdirP : fs.existsPath (pathJoin root Potsdam2D.image_root) = false)
    (hmissP : ∃ p ∈ potsdamArchives, fs.isFile (pathJoin root p.1) = false)
    (hxall : (XView2.dirsExist root fs).all id = false)
    (hmissX : ∃ p ∈ xviewArchives, fs.isFile (pathJoin root p.1) = false) :
    Potsdam2D.verify false root fs =
        (some .notFound,
         { fs with extracted := fs.extracted ++ presentArchives root fs potsdamArchives })
      ∧ XView2.verify false root fs =
        (some .notFound,
         { fs with extracted := fs.extracted ++ presentArchives root fs xviewArchives }) := by
  have flagsFalse : ∀ ps : List (String × String),
      (∃ p ∈ ps, fs.isFile (pathJoin root p.1) = false) →
      (([] : List Bool) ++ ps.map fun p => fs.isFile (pathJoin root p.1)).all id
        = false := by
    rintro ps ⟨p, hp, hpf⟩
    simp only [List.nil_append]
    refine List.all_eq_false.mpr ⟨fs.isFile (pathJoin root p.1), ?_, by simp [hpf]⟩
    exact List.mem_map_of_mem _ hp
  constructor
  · unfold Potsdam2D.verify
    rw [show Potsdam2D.filenames.zip Potsdam2D.md5s = potsdamArchives from rfl,
      loop_false_spec]
    simp only [hdirP, Bool.false_eq_true, if_false]
    rw [flagsFalse _ hmissP]
    simp
  · unfold XView2.verify
    rw [show (XView2.metadataValues.map fun i => (i.filename, i.md5))
        = xviewArchives from rfl, hxall, loop_false_spec]
    simp only [Bool.false_eq_true, if_false]
    rw [flagsFalse _ hmissX]
    simp

theorem verify_missing_archive_notfound_witness :
    Potsdam2D.verify false "data" fsC3 =
        (some .notFound,
         { fsC3 with extracted := fsC3.extracted ++ presentArchives "data" fsC3 potsdamArchives })
      ∧ XView2.verify false "data" fsC3 =
        (some .notFound,
         { fsC3 with extracted := fsC3.extracted ++ presentArchives "data" fsC3 xviewArchives }) :=
  verify_missing_archive_notfound "data" fsC3 rfl
    ⟨("5_Labels_all.zip", "cf7403c1a97c0d279414db"), by decide, rfl⟩
    rfl
    ⟨("train_images_labels_targets.tar.gz", "a20ebbfb7eb3452785b63ad02ffd1e16"),
      by decide, rfl⟩

/-! ## C4 -/

/-- C4 counterexample: the xView2 colormap has 4 entries for 5 declared
classes, so "palette length equals class count" fails on `XView2`. -/
theorem palette_length_cex :
    ¬ (XView2.colormap.length = XView2.classes.length) := by decide

/-- C4 amended: the colour-to-class mapping is injective over both
palettes (no two classes share a colour), and the palette length equals
the class count for `Potsdam2D`; for `XView2` the colormap has exactly
one entry fewer than the class count (the background class carries no
colour). -/
theorem palette_invariant_amended :
    Potsdam2D.colormap.length = Potsdam2D.classes.length
      ∧ Potsdam2D.colormap.Nodup
      ∧ XView2.colormap.Nodup
      ∧ XView2.colormap.length + 1 = XView2.classes.length := by
  refine ⟨by decide, ?_, ?_, by decide⟩ <;> decide

/-! ## C5 -/

/-- C5: constructing either dataset with an unconfigured split tag
fails with the configuration error before any filesystem access: for
every filesystem state the constructor returns the same error and the
state unchanged — the split-membership check precedes verification and
all path construction. -/
theorem invalid_split_fails_fast
    (root split : String) (checksum : Bool) (fs : FS)
    (hP : Potsdam2D.splits split = none)
    (hX : XView2.metadata split = none) :
    Potsdam2D.init root split checksum fs = (some .invalidConfiguration, fs, none)
      ∧ XView2.init root split checksum fs
          = (some .invalidConfiguration, fs, none) := by
  constructor
  · unfold Potsdam2D.init
    rw [hP]
  · unfold XView2.init
    rw [hX]

theorem invalid_split_fails_fast_witness :
    Potsdam2D.init "data" "foo" true fsC3 = (some .invalidConfiguration, fsC3, none)
      ∧ XView2.init "data" "foo" true fsC3
          = (some .invalidConfiguration, fsC3, none) :=
  invalid_split_fails_fast "data" "foo" true fsC3 rfl rfl

/-! ## C8 -/

/-- C8: the second hardcoded Potsdam checksum is only 22 characters
long, not the 32 of an MD5 hex digest (both xView2 checksums are 32
characters) — so the invariant "every declared checksum is a
32-character hex digest" fails on the code. -/
theorem md5_digest_lengths :
    Potsdam2D.md5s.map String.length = [32, 22]
      ∧ xviewArchives.map (fun p => p.2.length) = [32, 32]
      ∧ ¬ (∀ s ∈ Potsdam2D.md5s, s.length = 32) := by
  refine ⟨by decide, by decide, ?_⟩
  intro h
  exact absurd (h "cf7403c1a97c0d279414db" (by decide)) (by decide)

/-! ## C9 -/

/-- A root with the extracted directory present next to a tampered
archive (checksum oracle reports an all-zero digest). -/
def fsC9 : FS :=
  { files := ["data/4_Ortho_RGBIR.zip"],
    dirs := ["data/4_Ortho_RGBIR"],
    md5 := fun _ => "00000000000000000000000000000000",
    image := fun _ => none,
    extracted := [] }

/-- C9: if the canonical extracted directory exists,
`Potsdam2D._verify` returns immediately with the filesystem untouched —
no checksum comparison and no error, for any checksum flag and any
archive contents on disk. -/
theorem potsdam_verify_shortcircuit
    (checksum : Bool) (root : String) (fs : FS)
    (hdir : fs.existsPath (pathJoin root Potsdam2D.image_root) = true) :
    Potsdam2D.verify checksum root fs = (none, fs) := by
  unfold Potsdam2D.verify
  rw [hdir]
  simp

theorem potsdam_verify_shortcircuit_witness :
    Potsdam2D.verify true "data" fsC9 = (none, fsC9) :=
  potsdam_verify_shortcircuit true "data" fsC9 rfl

/-! ## C6 -/

/-- C6: for an in-range index with no transform installed,
`XView2.__getitem__` returns a dict with exactly the keys `image` and
`mask`: `image` is the pre- and post-disaster images stacked along a
new leading axis with shape `[2, 3, H, W]`, and `mask` is the two
target masks stacked along a new leading axis with shape `[2, H, W]`. -/
theorem xview_getitem_stacks
    (fs : FS) (files : List XRecord) (index : Nat) (r : XRecord) (h w : Nat)
    (hidx : files[index]? = some r)
    (h1 : fs.image r.image1 = some ⟨h, w⟩)
    (h2 : fs.image r.image2 = some ⟨h, w⟩)
    (h3 : fs.image r.mask1 = some ⟨h, w⟩)
    (h4 : fs.image r.mask2 = some ⟨h, w⟩) :
    XView2.getitem none fs files index =
      some [("image", ⟨[2, 3, h, w], [r.image1, r.image2]⟩),
            ("mask", ⟨[2, h, w], [r.mask1, r.mask2]⟩)] := by
  simp [XView2.getitem, XView2.load_image, XView2.load_target,
    hidx, h1, h2, h3, h4, torchStack]

/-- A record whose four files all decode to 2×3-pixel images. -/
def recC6 : XRecord :=
  ⟨"i1.png", "i2.png", "m1.png", "m2.png"⟩

def fsC6 : FS :=
  { files := ["i1.png", "i2.png", "m1.png", "m2.png"],
    dirs := [],
    md5 := fun _ => "",
    image := fun _ => some ⟨2, 3⟩,
    extracted := [] }

theorem xview_getitem_stacks_witness :
    XView2.getitem none fsC6 [recC6] 0 =
      some [("image", ⟨[2, 3, 2, 3], [recC6.image1, recC6.image2]⟩),
            ("mask", ⟨[2, 2, 3], [recC6.mask1, recC6.mask2]⟩)] :=
  xview_getitem_stacks fsC6 [recC6] 0 recC6 2 3 rfl rfl rfl rfl rfl

/-! ## C7 -/

/-- The base names `_load_files` derives: strip the last two
underscore-delimited tokens from each globbed png's basename. -/
def xviewBaseNames (fs : FS) (image_root : String) : List String :=
  (fs.globPng image_root).map fun f => stripLastTwoTokens (basename f)

/-- C7: for a valid split, the record list of `_load_files` has exactly
one record per unique base name (base name = png basename with the last
two underscore tokens stripped): the deduplicated name list has no
duplicates, contains exactly the derived base names, and every name
yields one record of the four constructed paths, with no existence
filtering. -/
theorem xview_load_files_dedup
    (root split : String) (fs : FS) (info : XMeta)
    (hsplit : XView2.metadata split = some info) :
    XView2.load_files root split fs =
        some ((xviewBaseNames fs (pathJoin root (pathJoin info.directory "images"))).dedup.map
          (XView2.mkRecord (pathJoin root (pathJoin info.directory "images"))
            (pathJoin root (pathJoin info.directory "targets"))))
      ∧ (xviewBaseNames fs (pathJoin root (pathJoin info.directory "images"))).dedup.Nodup
      ∧ ∀ b, b ∈ (xviewBaseNames fs (pathJoin root (pathJoin info.directory "images"))).dedup
          ↔ b ∈ xviewBaseNames fs (pathJoin root (pathJoin info.directory "images")) := by
  refine ⟨?_, List.nodup_dedup _, fun b => List.mem_dedup⟩
  unfold XView2.load_files
  rw [hsplit]
  simp only [xviewBaseNames, List.map_map, Option.some.injEq]
  rfl

def fsC7 : FS :=
  { files := ["data/train/images/guatemala-volcano_00000000_pre_disaster.png",
              "data/train/images/guatemala-volcano_00000000_post_disaster.png"],
    dirs := [],
    md5 := fun _ => "",
    image := fun _ => none,
    extracted := [] }

theorem xview_load_files_dedup_witness :
    XView2.load_files "data" "train" fsC7 =
        some ((xviewBaseNames fsC7 (pathJoin "data" (pathJoin "train" "images"))).dedup.map
          (XView2.mkRecord (pathJoin "data" (pathJoin "train" "images"))
            (pathJoin "data" (pathJoin "train" "targets"))))
      ∧ (xviewBaseNames fsC7 (pathJoin "data" (pathJoin "train" "images"))).dedup.Nodup
      ∧ ∀ b, b ∈ (xviewBaseNames fsC7 (pathJoin "data" (pathJoin "train" "images"))).dedup
          ↔ b ∈ xviewBaseNames fsC7 (pathJoin "data" (pathJoin "train" "images")) :=
  xview_load_files_dedup "data" "train" fsC7 XView2.trainMeta rfl

/-! ## C10 -/

/-- C10: `XView2._verify` checks both splits' data regardless of the
requested split: with the train split fully extracted on disk but the
test split's directories and archive absent, construction fails with
the not-found error for BOTH requested splits. -/
theorem xview_requires_both_splits
    (root : String) (fs : FS)
    (_ht1 : fs.existsPath (pathJoin root (pathJoin "train" "images")) = true)
    (_ht2 : fs.existsPath (pathJoin root (pathJoin "train" "labels")) = true)
    (_ht3 : fs.existsPath (pathJoin root (pathJoin "train" "targets")) = true)
    (hmiss : fs.existsPath (pathJoin root (pathJoin "test" "images")) = false)
    (harch : fs.isFile (pathJoin root "test_images_labels_targets.tar.gz")
      = false) :
    (XView2.init root "train" false fs).1 = some .notFound
      ∧ (XView2.init root "test" false fs).1 = some .notFound := by
  have hxall : (XView2.dirsExist root fs).all id = false := by
    refine List.all_eq_false.mpr
      ⟨fs.existsPath (pathJoin root (pathJoin "test" "images")), ?_, by simp [hmiss]⟩
    simp [XView2.dirsExist, XView2.metadataValues, XView2.trainMeta,
      XView2.testMeta]
  have hflags : (([] : List Bool)
      ++ xviewArchives.map fun p => fs.isFile (pathJoin root p.1)).all id
      = false := by
    simp only [List.nil_append]
    refine List.all_eq_false.mpr
      ⟨fs.isFile (pathJoin root "test_images_labels_targets.tar.gz"), ?_,
        by simp [harch]⟩
    exact List.mem_map_of_mem _ (by decide :
      ("test_images_labels_targets.tar.gz", "1b39c47e05d1319c17cc8763cee6fe0c")
        ∈ xviewArchives)
  have hverify : XView2.verify false root fs =
      (some .notFound,
       { fs with extracted := fs.extracted ++ presentArchives root fs xviewArchives }) := by
    unfold XView2.verify
    rw [show (XView2.metadataValues.map fun i => (i.filename, i.md5))
        = xviewArchives from rfl, hxall, loop_false_spec]
    simp only [Bool.false_eq_true, if_false]
    rw [hflags]
    simp
  constructor
  · unfold XView2.init
    rw [show XView2.metadata "train" = some XView2.trainMeta from rfl, hverify]
  · unfold XView2.init
    rw [show XView2.metadata "test" = some XView2.testMeta from rfl, hverify]

/-- The train split fully extracted, the test split entirely absent. -/
def fsC10 : FS :=
  { files := [],
    dirs := ["data/train/images", "data/train/labels", "data/train/targets"],
    md5 := fun _ => "",
    image := fun _ => none,
    extracted := [] }

theorem xview_requires_both_splits_witness :
    (XView2.init "data" "train" false fsC10).1 = some .notFound
      ∧ (XView2.init "data" "test" false fsC10).1 = some .notFound :=
  xview_requires_both_splits "data" fsC10 rfl rfl rfl rfl rfl
